import Mathlib

/-!
Verification of the coordinate-mapping and navigation engine of a PDF viewer
(`src/pdfviewer.py`).  Python floats are modelled as exact rationals (`ℚ`),
scrollbar values as integers (`ℤ`), matching Qt's integer scroll offsets.
-/

namespace PDFViewer

/-- Python builtin `int(x)` applied to a float: truncation toward zero. -/
def pyInt (q : ℚ) : ℤ := if 0 ≤ q then ⌊q⌋ else ⌈q⌉

/-- Python builtin `round(x)`: round half to even (banker's rounding). -/
def pyRound (q : ℚ) : ℤ :=
  if q - ⌊q⌋ < 1 / 2 then ⌊q⌋
  else if q - ⌊q⌋ > 1 / 2 then ⌊q⌋ + 1
  else if ⌊q⌋ % 2 = 0 then ⌊q⌋ else ⌊q⌋ + 1

/-- Qt `QScrollBar.setValue(v)` clamps the requested value into
`[minimum, maximum]`; the viewer never changes `minimum` from its default 0. -/
def sbSetValue (sb_max v : ℤ) : ℤ := max 0 (min v sb_max)

/-- `self.base_pdf_scale = 2.0` (line 24 of `pdfviewer.py`). -/
def base_pdf_scale : ℚ := 2

/-- Fit-to-width user scale, from line 152:
`self.user_scale = target_width / max(1, self.base_image.width())`. -/
def fit_user_scale (target_width base_image_width : ℤ) : ℚ :=
  (target_width : ℚ) / ((max 1 base_image_width : ℤ) : ℚ)

/-! ## `update_scaled_image` (lines 133–170): top-fixed rescale -/

/-- The inputs `update_scaled_image` reads: the render scale used for the
currently displayed image, the scrollbar value, the fit-to-width flag, the
viewport and base-image widths, and the current user scale. -/
structure RescaleInput where
  old_render_scale : ℚ
  scroll_value : ℤ
  fit_to_width : Bool
  viewport_width : ℤ
  base_image_width : ℤ
  user_scale : ℚ
  deriving DecidableEq

/-- The state `update_scaled_image` produces: the new user scale, the new
render scale, and the scroll value restored by the deferred `_restore`
callback.  `sb2_max` is the scrollbar maximum after the layout has settled. -/
structure RescaleResult where
  user_scale : ℚ
  current_render_scale : ℚ
  restored_value : ℤ
  deriving DecidableEq

/-- Shallow embedding of `update_scaled_image` (lines 133–170).
Step 1 captures `y_top_pdf = sb.value() / old_render_scale` (guarded against a
zero scale); step 2 recomputes `user_scale` in fit-to-width mode; step 3 sets
`current_render_scale = base_pdf_scale * user_scale`; step 4 (`_restore`)
sets the scrollbar to `int(round(y_top_pdf * current_render_scale))` clamped
into `[0, sb2.maximum()]`. -/
def update_scaled_image (i : RescaleInput) (sb2_max : ℤ) : RescaleResult :=
  let old_render_scale := i.old_render_scale
  let y_top_scaled := i.scroll_value
  let y_top_pdf : ℚ :=
    if old_render_scale ≠ 0 then (y_top_scaled : ℚ) / old_render_scale else 0
  let user_scale :=
    if i.fit_to_width then fit_user_scale i.viewport_width i.base_image_width
    else i.user_scale
  let new_render_scale := base_pdf_scale * user_scale
  let target_scaled := pyRound (y_top_pdf * new_render_scale)
  { user_scale := user_scale
    current_render_scale := new_render_scale
    restored_value := max 0 (min target_scaled sb2_max) }

/-! ## `update_pixmap` (lines 178–195): anchor overlay drawing -/

/-- The y positions of the overlay lines drawn by `update_pixmap`: nothing in
performance mode, otherwise `painter.drawLine(0, int(y * self.user_scale), …)`
for each anchor `y` (line 188). -/
def update_pixmap_lines (performance_mode : Bool) (anchors : List ℚ)
    (user_scale : ℚ) : List ℤ :=
  if performance_mode then []
  else anchors.map fun y => pyInt (y * user_scale)

/-! ## Zoom operations (lines 325–342) and the scale state they act on -/

/-- The scale-related fields of the viewer that the zoom operations mutate. -/
structure ZoomState where
  user_scale : ℚ
  current_render_scale : ℚ
  fit_to_width : Bool
  deriving DecidableEq

/-- Initial scale state from `__init__` (lines 25–27): `user_scale = 1.0`,
`current_render_scale = base_pdf_scale * user_scale`, `fit_to_width = True`. -/
def initZoomState : ZoomState :=
  { user_scale := 1
    current_render_scale := base_pdf_scale * 1
    fit_to_width := true }

/-- One zoom action: `zoom_in`, `zoom_out`, or `reset_zoom` (fit to width;
the viewport width at the moment of the recomputation is carried by the op). -/
inductive ZoomOp where
  | zin : ZoomOp
  | zout : ZoomOp
  | reset : ℤ → ZoomOp
  deriving DecidableEq

/-- Effect of one zoom action on the scale state, folding in the scale part of
the `update_scaled_image` call each action ends with: `zoom_in` sets
`fit_to_width = False` and multiplies `user_scale` by 1.85 (lines 325–329),
`zoom_out` divides by 1.85 (lines 331–335), `reset_zoom` re-enables
fit-to-width so that `update_scaled_image` recomputes
`user_scale = viewport_width / max(1, base_image_width)` (lines 337–342,
148–152); each then sets `current_render_scale = base_pdf_scale * user_scale`
(lines 155–156). -/
def applyZoomOp (base_image_width : ℤ) : ZoomOp → ZoomState → ZoomState
  | .zin, s =>
    let us := s.user_scale * (185 / 100)
    { user_scale := us, current_render_scale := base_pdf_scale * us
      fit_to_width := false }
  | .zout, s =>
    let us := s.user_scale / (185 / 100)
    { user_scale := us, current_render_scale := base_pdf_scale * us
      fit_to_width := false }
  | .reset vw, _ =>
    let us := fit_user_scale vw base_image_width
    { user_scale := us, current_render_scale := base_pdf_scale * us
      fit_to_width := true }

/-- A finite sequence of zoom actions applied in order. -/
def applyZoomOps (base_image_width : ℤ) (ops : List ZoomOp) (s : ZoomState) :
    ZoomState :=
  ops.foldl (fun st op => applyZoomOp base_image_width op st) s

/-! ## Smooth-scroll animation (lines 300–322) -/

/-- The animation state: scrollbar value and maximum, the snap target
`self.target_y`, the per-tick float delta `self.speed`, and whether the
recurring `QTimer` is running. -/
structure ScrollState where
  value : ℤ
  sb_max : ℤ
  target_y : ℤ
  speed : ℚ
  timer_on : Bool
  deriving DecidableEq

/-- `scroll_to_anchor(index)` (lines 300–313): `target_y =
int(anchors[index] * user_scale)` clamped to `[0, sb.maximum()]`,
`speed = (target_y - start_y) / 30` with `start_y = sb.value()`, and the
timer is started. -/
def scroll_to_anchor (anchors : List ℚ) (index : ℕ) (user_scale : ℚ)
    (sb_value sb_max : ℤ) : ScrollState :=
  let target_y := pyInt (anchors.getD index 0 * user_scale)
  let start_y := sb_value
  let target_y := min (max 0 target_y) sb_max
  { value := sb_value, sb_max := sb_max, target_y := target_y
    speed := ((target_y : ℚ) - (start_y : ℚ)) / 30
    timer_on := true }

/-- One timer tick, `smooth_scroll` (lines 315–322): `new_val = sb.value() +
self.speed`; if the direction-sensitive overshoot check fires, set the value
to `int(self.target_y)` and stop the timer, else set it to `int(new_val)`.
Ticks only occur while the timer runs, so a stopped state is left unchanged. -/
def smooth_scroll (s : ScrollState) : ScrollState :=
  if s.timer_on = false then s
  else
    let new_val : ℚ := (s.value : ℚ) + s.speed
    if (0 < s.speed ∧ (s.target_y : ℚ) ≤ new_val) ∨
        (s.speed < 0 ∧ new_val ≤ (s.target_y : ℚ)) then
      { s with value := sbSetValue s.sb_max s.target_y, timer_on := false }
    else
      { s with value := sbSetValue s.sb_max (pyInt new_val) }

/-! ## Anchor navigation (lines 280–298) -/

/-- `next_anchor` (lines 280–288): on an empty anchor list print and return
(the `Bool` records whether `scroll_to_anchor` was invoked); otherwise advance
the cursor, wrapping from the last index to 0. -/
def next_anchor (anchors : List ℚ) (current_anchor_index : ℤ) : ℤ × Bool :=
  if anchors = [] then (current_anchor_index, false)
  else if current_anchor_index < (anchors.length : ℤ) - 1 then
    (current_anchor_index + 1, true)
  else (0, true)

/-- `prev_anchor` (lines 290–298): on an empty anchor list print and return;
otherwise move the cursor back, wrapping from index 0 (and below) to the last
index. -/
def prev_anchor (anchors : List ℚ) (current_anchor_index : ℤ) : ℤ × Bool :=
  if anchors = [] then (current_anchor_index, false)
  else if current_anchor_index > 0 then (current_anchor_index - 1, true)
  else ((anchors.length : ℤ) - 1, true)

/-! ## Anchor store mutation (lines 206–228, 267–278) -/

/-- Python `sorted(list(set(l)))`: the distinct elements of `l`, in ascending
order. -/
def pySortedSet (l : List ℚ) : List ℚ := l.dedup.insertionSort (· ≤ ·)

/-- Python `min(l, key=k)` on a non-empty list `a :: rest`: left fold keeping
the current best and replacing it only on a strictly smaller key, so the
first minimizer wins. -/
def pyMinBy (k : ℚ → ℚ) (a : ℚ) (rest : List ℚ) : ℚ :=
  rest.foldl (fun best x => if k x < k best then x else best) a

/-- `add_anchor(y_click)` (lines 206–218): convert the click to base-image
coordinates (`y_click / user_scale`), clamp into
`[0, base_image.height() - 1]`, append, then
`self.anchors = sorted(list(set(self.anchors)))`. -/
def add_anchor (anchors : List ℚ) (y_click user_scale : ℚ)
    (base_image_height : ℤ) : List ℚ :=
  let y_abs := y_click / user_scale
  let y_abs := max 0 (min ((base_image_height : ℚ) - 1) y_abs)
  pySortedSet (anchors ++ [y_abs])

/-- `add_anchor_at_view_top` (lines 267–278), without the performance-mode
guard (handled at the dispatch level): `y_abs = sb.value() / user_scale`,
append, sort-dedup.  Note: no clamping here, unlike `add_anchor`. -/
def add_anchor_at_view_top (anchors : List ℚ) (sb_value : ℤ)
    (user_scale : ℚ) : List ℚ :=
  let y_abs := (sb_value : ℚ) / user_scale
  pySortedSet (anchors ++ [y_abs])

/-- Python `list.remove(x)`: delete the first element equal to `x`. -/
def pyRemoveFirst (x : ℚ) : List ℚ → List ℚ
  | [] => []
  | a :: rest => if a = x then rest else a :: pyRemoveFirst x rest

/-- `remove_nearest_anchor(y_click)` (lines 220–228): no-op on an empty list;
else `y_abs = y_click / user_scale`, `nearest = min(anchors, key=lambda a:
abs(a - y_abs))`, and `anchors.remove(nearest)` (removes the first equal
element). -/
def remove_nearest_anchor (anchors : List ℚ) (y_click user_scale : ℚ) :
    List ℚ :=
  match anchors with
  | [] => anchors
  | a :: rest =>
    let y_abs := y_click / user_scale
    let nearest := pyMinBy (fun x => |x - y_abs|) a rest
    pyRemoveFirst nearest (a :: rest)

/-! ## Anchor persistence (lines 345–360)

`save_anchors` writes `json.dump(self.anchors, f)`; `load_anchors` returns
early when the file does not exist, otherwise runs `self.anchors =
json.load(f)` and resets the cursor.  The `json` library is an external
collaborator; its observable behaviour on this data is modelled by
`AnchorFile`: a file produced by `json.dump` of a float list parses back to
exactly that list (Python float reprs round-trip), and any byte content the
parser rejects makes `json.load` raise `JSONDecodeError`, which
`load_anchors` does not catch — modelled as `Except.error`. -/

/-- Content of the anchor file: a JSON document holding a list of floats
(what `save_anchors` writes), or bytes the JSON parser rejects. -/
inductive AnchorFile where
  | floats : List ℚ → AnchorFile
  | malformed : AnchorFile
  deriving DecidableEq

/-- The viewer state that `save_anchors` / `load_anchors` touch, together
with the content of `self.anchor_path` (`none` when the file is absent). -/
structure PersistState where
  anchors : List ℚ
  current_anchor_index : ℤ
  file : Option AnchorFile
  deriving DecidableEq

/-- `save_anchors` (lines 345–349): overwrite the anchor file with the JSON
dump of the current anchor list. -/
def save_anchors (s : PersistState) : PersistState :=
  { s with file := some (.floats s.anchors) }

/-- `load_anchors` (lines 351–360): if the file is missing, print and return
with everything unchanged; if it parses as a float list, replace the anchors
wholesale and reset `current_anchor_index = -1`; if parsing fails, the
uncaught `json.JSONDecodeError` propagates (`Except.error`), the assignment
to `self.anchors` never having happened. -/
def load_anchors (s : PersistState) : Except Unit PersistState :=
  match s.file with
  | none => .ok s
  | some (.floats l) =>
    .ok { s with anchors := l, current_anchor_index := -1 }
  | some .malformed => .error ()

/-! ## Input dispatch (lines 231–264, 392–401) -/

/-- The keys `keyPressEvent` distinguishes (lines 231–264). `ret` and `enter`
are `Qt.Key_Return` / `Qt.Key_Enter`, `plus`/`equal`/`minus` the zoom keys,
`kS`/`kL`/`kF` the save/load/performance-mode keys. -/
inductive Key where
  | escape | right | left | plus | equal | minus
  | kS | kL | ret | enter | kF | other
  deriving DecidableEq

/-- Mouse buttons distinguished by `ClickableLabel.mousePressEvent`. -/
inductive MouseButton where
  | leftButton | rightButton | otherButton
  deriving DecidableEq

/-- The full viewer state the input handlers act on. -/
structure UIState where
  performance_mode : Bool
  fit_to_width : Bool
  user_scale : ℚ
  current_render_scale : ℚ
  anchors : List ℚ
  current_anchor_index : ℤ
  file : Option AnchorFile
  scroll_value : ℤ
  base_image_height : ℤ
  deriving DecidableEq

/-- `next_anchor` as a state transformer (cursor update; the subsequent
`scroll_to_anchor` animation is modelled separately). -/
def uiNext (s : UIState) : UIState :=
  { s with current_anchor_index := (next_anchor s.anchors s.current_anchor_index).1 }

/-- `prev_anchor` as a state transformer. -/
def uiPrev (s : UIState) : UIState :=
  { s with current_anchor_index := (prev_anchor s.anchors s.current_anchor_index).1 }

/-- `zoom_in` (lines 325–329) followed by the scale effect of
`update_scaled_image`, on the full state. -/
def uiZoomIn (s : UIState) : UIState :=
  let us := s.user_scale * (185 / 100)
  { s with fit_to_width := false, user_scale := us
           current_render_scale := base_pdf_scale * us }

/-- `zoom_out` (lines 331–335) followed by the scale effect of
`update_scaled_image`, on the full state. -/
def uiZoomOut (s : UIState) : UIState :=
  let us := s.user_scale / (185 / 100)
  { s with fit_to_width := false, user_scale := us
           current_render_scale := base_pdf_scale * us }

/-- `save_anchors` on the full state. -/
def uiSave (s : UIState) : UIState :=
  { s with file := some (.floats s.anchors) }

/-- `load_anchors` on the full state (may raise, see `load_anchors`). -/
def uiLoad (s : UIState) : Except Unit UIState :=
  match s.file with
  | none => .ok s
  | some (.floats l) =>
    .ok { s with anchors := l, current_anchor_index := -1 }
  | some .malformed => .error ()

/-- `add_anchor_at_view_top` (lines 267–278) on the full state, including its
own performance-mode guard (lines 269–270). -/
def uiAddAnchorAtViewTop (s : UIState) : UIState :=
  if s.performance_mode then s
  else { s with anchors := add_anchor_at_view_top s.anchors s.scroll_value s.user_scale }

/-- `enter_performance_mode` (lines 364–371), state part. -/
def enter_performance_mode (s : UIState) : UIState :=
  { s with performance_mode := true }

/-- `exit_performance_mode` (lines 373–380), state part. -/
def exit_performance_mode (s : UIState) : UIState :=
  { s with performance_mode := false }

/-- The performance-mode branch of `keyPressEvent` (lines 235–246): only
Escape, Left/Right and the zoom keys do anything. -/
def performanceModeKey (k : Key) (s : UIState) : UIState :=
  match k with
  | .escape => exit_performance_mode s
  | .right => uiNext s
  | .left => uiPrev s
  | .plus => uiZoomIn s
  | .equal => uiZoomIn s
  | .minus => uiZoomOut s
  | _ => s

/-- The normal-mode branch of `keyPressEvent` (lines 249–264).
`load_anchors` may raise, hence the `Except`. -/
def normalModeKey (k : Key) (s : UIState) : Except Unit UIState :=
  match k with
  | .kS => .ok (uiSave s)
  | .kL => uiLoad s
  | .right => .ok (uiNext s)
  | .left => .ok (uiPrev s)
  | .plus => .ok (uiZoomIn s)
  | .equal => .ok (uiZoomIn s)
  | .minus => .ok (uiZoomOut s)
  | .ret => .ok (uiAddAnchorAtViewTop s)
  | .enter => .ok (uiAddAnchorAtViewTop s)
  | .kF => .ok (enter_performance_mode s)
  | _ => .ok s

/-- `keyPressEvent` (lines 231–264): the performance-mode check comes first. -/
def keyPressEvent (k : Key) (s : UIState) : Except Unit UIState :=
  if s.performance_mode then .ok (performanceModeKey k s)
  else normalModeKey k s

/-- `ClickableLabel.mousePressEvent` (lines 392–401): in performance mode all
clicks are ignored; otherwise a left click adds an anchor at the click's y
position and a right click removes the nearest anchor. -/
def mousePressEvent (b : MouseButton) (pos_y : ℚ) (s : UIState) : UIState :=
  if s.performance_mode then s
  else
    match b with
    | .leftButton =>
      { s with anchors := add_anchor s.anchors pos_y s.user_scale s.base_image_height }
    | .rightButton =>
      { s with anchors := remove_nearest_anchor s.anchors pos_y s.user_scale }
    | .otherButton => s

/-! ## Helper lemmas -/

theorem pySortedSet_sorted (l : List ℚ) : (pySortedSet l).Pairwise (· < ·) := by
  have hs : (pySortedSet l).Sorted (· ≤ ·) := List.sorted_insertionSort _ _
  have hn : (pySortedSet l).Nodup := by
    have hp := List.perm_insertionSort (· ≤ ·) l.dedup
    exact (hp.nodup_iff).mpr (List.nodup_dedup l)
  exact hs.lt_of_le hn

theorem mem_pySortedSet {x : ℚ} {l : List ℚ} : x ∈ pySortedSet l ↔ x ∈ l := by
  simp [pySortedSet, List.mem_insertionSort, List.mem_dedup]

/-! ## Claim theorems -/

/-- Claim C1 (confirmed): whenever the render scale changes, the document
coordinate at the top of the viewport is captured as
`scroll_value / old_render_scale` before the scale change, and the restored
scroll offset after re-render equals `round` of that coordinate times the new
render scale, clamped into `[0, maximum]`. -/
theorem C1_top_fixed_rescale (i : RescaleInput) (m : ℤ)
    (h : i.old_render_scale ≠ 0) :
    (update_scaled_image i m).restored_value =
      max 0 (min (pyRound ((i.scroll_value : ℚ) / i.old_render_scale *
        (update_scaled_image i m).current_render_scale)) m) := by
  simp only [update_scaled_image, if_pos h]

/-- Witness for C1: document coordinate 100 at the top at render scale 1.0
(offset 100); after rescaling to render scale 2.0 the restored offset is 200. -/
theorem C1_witness :
    ((1 : ℚ) ≠ 0) ∧
    (update_scaled_image
        { old_render_scale := 1, scroll_value := 100, fit_to_width := false
          viewport_width := 0, base_image_width := 0, user_scale := 1 }
        1000).restored_value = 200 :=
  ⟨one_ne_zero, by
    have h := C1_top_fixed_rescale
      { old_render_scale := 1, scroll_value := 100, fit_to_width := false
        viewport_width := 0, base_image_width := 0, user_scale := 1 }
      1000 one_ne_zero
    rw [h]
    norm_num [update_scaled_image, base_pdf_scale, pyRound]⟩

/-- Claim C6 counterexample: `add_anchor_at_view_top` does not clamp.  With
`base_image_height = 100`, a stored scroll value of 60 at `user_scale = 1/2`
inserts the coordinate 120, which lies outside `[0, 100 - 1]`. -/
theorem C6_counterexample :
    add_anchor_at_view_top [] 60 (1 / 2) = [120] ∧
    ¬ ((120 : ℚ) ≤ (100 : ℚ) - 1) := by
  constructor
  · norm_num [add_anchor_at_view_top, pySortedSet, List.insertionSort,
      List.dedup]
  · norm_num

/-- Claim C6 as amended: `add_anchor` clamps the click coordinate into
`[0, base_image_height - 1]`, inserts it, removes duplicates under exact
equality and leaves the list strictly ascending; `add_anchor_at_view_top`
also deduplicates and sorts, but inserts `scroll_value / user_scale` without
clamping. -/
theorem C6_amended (anchors : List ℚ) (y_click user_scale : ℚ)
    (base_image_height sb_value : ℤ) (hh : 1 ≤ base_image_height) :
    (max 0 (min ((base_image_height : ℚ) - 1) (y_click / user_scale)) ∈
        add_anchor anchors y_click user_scale base_image_height) ∧
    (∀ y ∈ add_anchor anchors y_click user_scale base_image_height,
        y ∈ anchors ∨
        y = max 0 (min ((base_image_height : ℚ) - 1) (y_click / user_scale))) ∧
    (0 ≤ max 0 (min ((base_image_height : ℚ) - 1) (y_click / user_scale)) ∧
      max 0 (min ((base_image_height : ℚ) - 1) (y_click / user_scale)) ≤
        (base_image_height : ℚ) - 1) ∧
    (add_anchor anchors y_click user_scale base_image_height).Pairwise (· < ·) ∧
    ((sb_value : ℚ) / user_scale ∈
        add_anchor_at_view_top anchors sb_value user_scale) ∧
    (∀ y ∈ add_anchor_at_view_top anchors sb_value user_scale,
        y ∈ anchors ∨ y = (sb_value : ℚ) / user_scale) ∧
    (add_anchor_at_view_top anchors sb_value user_scale).Pairwise (· < ·) := by
  have hb : (0 : ℚ) ≤ (base_image_height : ℚ) - 1 := by
    have : (1 : ℚ) ≤ (base_image_height : ℚ) := by exact_mod_cast hh
    linarith
  refine ⟨?_, ?_, ⟨le_max_left _ _, ?_⟩, ?_, ?_, ?_, ?_⟩
  · rw [add_anchor, mem_pySortedSet]; simp
  · intro y hy
    rw [add_anchor, mem_pySortedSet] at hy
    rcases List.mem_append.mp hy with h | h
    · exact Or.inl h
    · exact Or.inr (List.mem_singleton.mp h)
  · exact max_le hb (min_le_left _ _)
  · exact pySortedSet_sorted _
  · rw [add_anchor_at_view_top, mem_pySortedSet]; simp
  · intro y hy
    rw [add_anchor_at_view_top, mem_pySortedSet] at hy
    rcases List.mem_append.mp hy with h | h
    · exact Or.inl h
    · exact Or.inr (List.mem_singleton.mp h)
  · exact pySortedSet_sorted _

/-- Witness for C6: a concrete click-add at height 100 (click 60 at scale 2
clamps to 30 and lands sorted between 20 and 50). -/
theorem C6_witness :
    ((1 : ℤ) ≤ 100) ∧
    (max 0 (min (((100 : ℤ) : ℚ) - 1) (60 / 2)) ∈
        add_anchor [50, 20] 60 2 100) ∧
    (add_anchor [50, 20] 60 2 100).Pairwise (· < ·) := by
  have h := C6_amended [50, 20] 60 2 100 30 (by norm_num)
  exact ⟨by norm_num, h.1, h.2.2.2.1⟩

/-- Claim C7 (confirmed): saving the anchors to the anchor file and loading
from that file succeeds and reproduces exactly the original anchor list, in
the same order. -/
theorem C7_save_load_roundtrip (s : PersistState) :
    ∃ t, load_anchors (save_anchors s) = .ok t ∧ t.anchors = s.anchors := by
  refine ⟨{ anchors := s.anchors, current_anchor_index := -1
            file := some (.floats s.anchors) }, ?_, rfl⟩
  simp [save_anchors, load_anchors]

/-- Claim C8 counterexample: a malformed anchor file makes `load_anchors`
raise an uncaught `json.JSONDecodeError` instead of reporting and keeping
the prior state — the claim that a malformed file is non-fatal is false. -/
theorem C8_counterexample :
    load_anchors { anchors := [5], current_anchor_index := 0
                   file := some .malformed } = .error () := rfl

/-- Claim C8 as amended: a missing anchor file is non-fatal and leaves the
whole state unchanged; a malformed anchor file raises an uncaught parse
exception (crashing the viewer), though the in-memory anchor list has not
been modified at the point of the raise. -/
theorem C8_amended (s : PersistState) :
    (s.file = none → load_anchors s = .ok s) ∧
    (s.file = some .malformed → load_anchors s = .error ()) := by
  constructor <;> intro h <;> simp [load_anchors, h]

/-- Witness for C8: the missing-file and malformed-file branches at a
concrete prior state. -/
theorem C8_witness :
    load_anchors { anchors := [5], current_anchor_index := 0, file := none } =
      .ok { anchors := [5], current_anchor_index := 0, file := none } ∧
    load_anchors { anchors := [7], current_anchor_index := 1
                   file := some .malformed } = .error () :=
  ⟨(C8_amended _).1 rfl, (C8_amended _).2 rfl⟩

/-- Claim C9 counterexample: with a viewport width of 0, the fit-to-width
computation produces user scale 0 (hence render scale 0); nothing clamps it
to a positive minimum — the `max(1, ...)` guard only covers the base image
width. -/
theorem C9_counterexample :
    fit_user_scale 0 1000 = 0 ∧ ¬ (0 < fit_user_scale 0 1000) ∧
    ¬ (0 < base_pdf_scale * fit_user_scale 0 1000) := by
  norm_num [fit_user_scale, base_pdf_scale]

/-- Claim C9 as amended: zoom-in and zoom-out keep a strictly positive user
scale and render scale positive, and the fit-to-width recomputation yields a
strictly positive user and render scale whenever the viewport width is
strictly positive (a zero base image width is guarded by `max(1, ...)`); a
zero viewport width, however, yields scale 0 — there is no positive clamp. -/
theorem C9_amended (s : ZoomState) (bw vw : ℤ)
    (hu : 0 < s.user_scale) (hvw : 0 < vw) :
    (0 < (applyZoomOp bw .zin s).user_scale ∧
      0 < (applyZoomOp bw .zin s).current_render_scale) ∧
    (0 < (applyZoomOp bw .zout s).user_scale ∧
      0 < (applyZoomOp bw .zout s).current_render_scale) ∧
    (0 < (applyZoomOp bw (.reset vw) s).user_scale ∧
      0 < (applyZoomOp bw (.reset vw) s).current_render_scale) := by
  have hfit : 0 < fit_user_scale vw bw := by
    rw [fit_user_scale]
    apply div_pos
    · exact_mod_cast hvw
    · have : (1 : ℤ) ≤ max 1 bw := le_max_left 1 bw
      exact_mod_cast lt_of_lt_of_le one_pos this
  refine ⟨⟨?_, ?_⟩, ⟨?_, ?_⟩, ⟨?_, ?_⟩⟩ <;>
    simp only [applyZoomOp, base_pdf_scale] <;> positivity

/-- Witness for C9: the initial state (user scale 1) with viewport width 400
and base image width 1000. -/
theorem C9_witness :
    ((0 : ℚ) < 1) ∧ ((0 : ℤ) < 400) ∧
    (0 < (applyZoomOp 1000 .zin initZoomState).user_scale ∧
      0 < (applyZoomOp 1000 .zin initZoomState).current_render_scale) ∧
    (0 < (applyZoomOp 1000 (.reset 400) initZoomState).user_scale ∧
      0 < (applyZoomOp 1000 (.reset 400) initZoomState).current_render_scale) := by
  have h := C9_amended initZoomState 1000 400 one_pos (by norm_num)
  exact ⟨one_pos, by norm_num, h.1, h.2.2⟩

/-- After any sequence of zoom actions starting from a state satisfying it,
`current_render_scale = base_pdf_scale * user_scale` holds. -/
theorem applyZoomOps_render_scale (bw : ℤ) (ops : List ZoomOp) (s : ZoomState)
    (h : s.current_render_scale = base_pdf_scale * s.user_scale) :
    (applyZoomOps bw ops s).current_render_scale =
      base_pdf_scale * (applyZoomOps bw ops s).user_scale := by
  induction ops generalizing s with
  | nil => exact h
  | cons op rest ih =>
    cases op <;> exact ih _ rfl

/-- Claim C2 counterexample: starting from the initial state and zooming in
once, the render scale is `3.7` but the overlay line of the anchor at
document coordinate 100 is drawn at `int(100 * 1.85) = 185`, not at
`round(100 * 3.7) = 370` — document coordinates are base-render pixels, so
multiplying by the render scale (base 2.0 times user scale) overshoots by
the base factor. -/
theorem C2_counterexample :
    update_pixmap_lines false [100]
        (applyZoomOps 1000 [.zin] initZoomState).user_scale ≠
      [pyRound (100 *
        (applyZoomOps 1000 [.zin] initZoomState).current_render_scale)] := by
  have h1 : update_pixmap_lines false [100]
      (applyZoomOps 1000 [.zin] initZoomState).user_scale = [185] := by
    norm_num [update_pixmap_lines, applyZoomOps, applyZoomOp, initZoomState,
      base_pdf_scale, pyInt]
  have h2 : pyRound (100 *
      (applyZoomOps 1000 [.zin] initZoomState).current_render_scale) = 370 := by
    norm_num [applyZoomOps, applyZoomOp, initZoomState, base_pdf_scale, pyRound]
  rw [h1, h2]
  simp

/-- Claim C2 as amended: for every anchor at document coordinate `c` and
every finite sequence of zoom-in / zoom-out / reset operations from the
initial state, ending at render scale `s`, the overlay line of that anchor
is drawn at `int(c * (s / base_pdf_scale)) = int(c * user_scale)` (Python
truncation): document coordinates are measured in base-render pixels, so the
on-screen offset is the coordinate times the user scale, not times the full
render scale. -/
theorem C2_amended (bw : ℤ) (ops : List ZoomOp) (anchors : List ℚ) :
    update_pixmap_lines false anchors
        (applyZoomOps bw ops initZoomState).user_scale =
      anchors.map (fun c => pyInt (c *
        ((applyZoomOps bw ops initZoomState).current_render_scale /
          base_pdf_scale))) := by
  have h := applyZoomOps_render_scale bw ops initZoomState rfl
  rw [update_pixmap_lines, h]
  have hb : base_pdf_scale ≠ 0 := by norm_num [base_pdf_scale]
  simp [mul_div_assoc, mul_comm, mul_div_cancel_left₀ _ hb]

/-- Claim C4 (confirmed): with a non-empty anchor list, `next_anchor`
advances the cursor by one, wrapping from the last index (and selecting
index 0 from the unset cursor `-1`), and `prev_anchor` moves it back by one,
wrapping from index 0 to the last index; with an empty list both report and
change nothing (no cursor change, no scroll request). -/
theorem C4_circular_navigation (anchors : List ℚ) (idx : ℤ) :
    (anchors = [] → next_anchor anchors idx = (idx, false) ∧
        prev_anchor anchors idx = (idx, false)) ∧
    (anchors ≠ [] →
      (idx = -1 → next_anchor anchors idx = (0, true)) ∧
      (idx < (anchors.length : ℤ) - 1 → next_anchor anchors idx = (idx + 1, true)) ∧
      (idx = (anchors.length : ℤ) - 1 → next_anchor anchors idx = (0, true)) ∧
      (0 < idx → prev_anchor anchors idx = (idx - 1, true)) ∧
      (idx = 0 → prev_anchor anchors idx = ((anchors.length : ℤ) - 1, true))) := by
  constructor
  · intro h
    simp [next_anchor, prev_anchor, h]
  · intro h
    have hlen : 0 < anchors.length := List.length_pos.mpr h
    refine ⟨?_, ?_, ?_, ?_, ?_⟩
    · intro hi
      have : idx < (anchors.length : ℤ) - 1 := by
        rw [hi]; omega
      simp [next_anchor, h, this, hi]
    · intro hi
      simp [next_anchor, h, hi]
    · intro hi
      have : ¬ idx < (anchors.length : ℤ) - 1 := by omega
      simp [next_anchor, h, this]
    · intro hi
      simp [prev_anchor, h, hi]
    · intro hi
      have : ¬ idx > 0 := by omega
      simp [prev_anchor, h, this]

/-- Witness for C4: anchors `[5, 15, 25]`; `next` from the unset cursor gives
index 0, `next` from 0 gives 1, `prev` from 0 wraps to 2; and on an empty
list `next` changes nothing. -/
theorem C4_witness :
    (([5, 15, 25] : List ℚ) ≠ []) ∧
    next_anchor [5, 15, 25] (-1) = (0, true) ∧
    next_anchor [5, 15, 25] 0 = (1, true) ∧
    prev_anchor [5, 15, 25] 0 = (2, true) ∧
    next_anchor ([] : List ℚ) 7 = (7, false) := by
  refine ⟨by simp, ?_, ?_, ?_, ?_⟩
  · exact ((C4_circular_navigation [5, 15, 25] (-1)).2 (by simp)).1 rfl
  · exact ((C4_circular_navigation [5, 15, 25] 0).2 (by simp)).2.1 (by norm_num)
  · have h := ((C4_circular_navigation [5, 15, 25] 0).2 (by simp)).2.2.2.2 rfl
    rw [h]; norm_num
  · exact ((C4_circular_navigation [] 7).1 rfl).1

/-- Claim C10 (confirmed): while performance (presentation) mode is active,
every mouse press leaves the whole state (in particular the anchor list)
unchanged; Right/Left and the zoom keys dispatch to exactly the same
navigation and zoom operations as in normal mode; the editing keys S
(save), L (load) and Return/Enter (add anchor at top) do nothing; Escape
exits performance mode, and every other key leaves performance mode
active. -/
theorem C10_presentation_gating (s : UIState) (b : MouseButton) (y : ℚ)
    (h : s.performance_mode = true) :
    mousePressEvent b y s = s ∧
    keyPressEvent .right s = .ok (uiNext s) ∧
    keyPressEvent .left s = .ok (uiPrev s) ∧
    keyPressEvent .plus s = .ok (uiZoomIn s) ∧
    keyPressEvent .equal s = .ok (uiZoomIn s) ∧
    keyPressEvent .minus s = .ok (uiZoomOut s) ∧
    keyPressEvent .kS s = .ok s ∧
    keyPressEvent .kL s = .ok s ∧
    keyPressEvent .ret s = .ok s ∧
    keyPressEvent .enter s = .ok s ∧
    keyPressEvent .kF s = .ok s ∧
    keyPressEvent .escape s = .ok (exit_performance_mode s) ∧
    (∀ k : Key, k ≠ .escape →
      ∃ t, keyPressEvent k s = .ok t ∧ t.performance_mode = true) := by
  refine ⟨?_, ?_, ?_, ?_, ?_, ?_, ?_, ?_, ?_, ?_, ?_, ?_, ?_⟩
  · simp [mousePressEvent, h]
  · simp [keyPressEvent, h, performanceModeKey]
  · simp [keyPressEvent, h, performanceModeKey]
  · simp [keyPressEvent, h, performanceModeKey]
  · simp [keyPressEvent, h, performanceModeKey]
  · simp [keyPressEvent, h, performanceModeKey]
  · simp [keyPressEvent, h, performanceModeKey]
  · simp [keyPressEvent, h, performanceModeKey]
  · simp [keyPressEvent, h, performanceModeKey]
  · simp [keyPressEvent, h, performanceModeKey]
  · simp [keyPressEvent, h, performanceModeKey]
  · simp [keyPressEvent, h, performanceModeKey]
  · intro k hk
    refine ⟨performanceModeKey k s, by simp [keyPressEvent, h], ?_⟩
    cases k <;>
      simp_all [performanceModeKey, uiNext, uiPrev, uiZoomIn, uiZoomOut]

/-- Witness for C10: a concrete performance-mode state; a left click changes
nothing and the S key changes nothing, while Right dispatches navigation. -/
theorem C10_witness :
    (({ performance_mode := true, fit_to_width := true, user_scale := 1
        current_render_scale := 2, anchors := [5], current_anchor_index := -1
        file := none, scroll_value := 0
        base_image_height := 100 } : UIState).performance_mode = true) ∧
    mousePressEvent .leftButton 3
      { performance_mode := true, fit_to_width := true, user_scale := 1
        current_render_scale := 2, anchors := [5], current_anchor_index := -1
        file := none, scroll_value := 0, base_image_height := 100 } =
      { performance_mode := true, fit_to_width := true, user_scale := 1
        current_render_scale := 2, anchors := [5], current_anchor_index := -1
        file := none, scroll_value := 0, base_image_height := 100 } ∧
    keyPressEvent .right
      { performance_mode := true, fit_to_width := true, user_scale := 1
        current_render_scale := 2, anchors := [5], current_anchor_index := -1
        file := none, scroll_value := 0, base_image_height := 100 } =
      .ok (uiNext
        { performance_mode := true, fit_to_width := true, user_scale := 1
          current_render_scale := 2, anchors := [5], current_anchor_index := -1
          file := none, scroll_value := 0, base_image_height := 100 }) ∧
    keyPressEvent .kS
      { performance_mode := true, fit_to_width := true, user_scale := 1
        current_render_scale := 2, anchors := [5], current_anchor_index := -1
        file := none, scroll_value := 0, base_image_height := 100 } =
      .ok { performance_mode := true, fit_to_width := true, user_scale := 1
            current_render_scale := 2, anchors := [5], current_anchor_index := -1
            file := none, scroll_value := 0, base_image_height := 100 } := by
  have h := C10_presentation_gating
    { performance_mode := true, fit_to_width := true, user_scale := 1
      current_render_scale := 2, anchors := [5], current_anchor_index := -1
      file := none, scroll_value := 0, base_image_height := 100 }
    .leftButton 3 rfl
  exact ⟨rfl, h.1, h.2.1, h.2.2.2.2.2.2.1⟩

/-- Claim C3 (code bug): the per-tick delta is indeed
`(target - start) / 30` and the overshoot check is direction-sensitive, but
the claimed termination fails.  Starting a jump from offset 0 to the anchor
at coordinate 10 at user scale 1 (scrollbar maximum 100) gives
`speed = 1/3`; every tick computes `int(0 + 1/3) = 0`, so the state is a
fixed point of `smooth_scroll`: after any number of ticks the offset is
still 0, short of the target 10, and the timer is still running — the
animation never reaches the target and never returns to the idle state. -/
theorem C3_animation_never_terminates :
    ∀ n : ℕ,
      smooth_scroll^[n] (scroll_to_anchor [10] 0 1 0 100) =
        scroll_to_anchor [10] 0 1 0 100 ∧
      (scroll_to_anchor [10] 0 1 0 100).speed =
        (((scroll_to_anchor [10] 0 1 0 100).target_y : ℚ) - 0) / 30 ∧
      (scroll_to_anchor [10] 0 1 0 100).timer_on = true ∧
      (scroll_to_anchor [10] 0 1 0 100).value = 0 ∧
      (scroll_to_anchor [10] 0 1 0 100).target_y = 10 := by
  have hs : scroll_to_anchor [10] 0 1 0 100 =
      { value := 0, sb_max := 100, target_y := 10, speed := 1 / 3
        timer_on := true } := by
    norm_num [scroll_to_anchor, pyInt]
  have hfix : smooth_scroll (scroll_to_anchor [10] 0 1 0 100) =
      scroll_to_anchor [10] 0 1 0 100 := by
    rw [hs]
    norm_num [smooth_scroll, pyInt, sbSetValue]
  intro n
  refine ⟨Function.iterate_fixed hfix n, ?_, ?_, ?_, ?_⟩ <;>
    norm_num [hs]

/-- Python `min` with a key on `a :: rest` returns a minimizer of the key;
being the first one encountered, on a list sorted ascending it is the
smallest element among the minimizers. -/
theorem pyMinBy_spec (k : ℚ → ℚ) :
    ∀ (rest : List ℚ) (a : ℚ), (a :: rest).Pairwise (· ≤ ·) →
      pyMinBy k a rest ∈ a :: rest ∧
      (∀ y ∈ a :: rest, k (pyMinBy k a rest) ≤ k y) ∧
      (∀ y ∈ a :: rest, k y = k (pyMinBy k a rest) → pyMinBy k a rest ≤ y) := by
  intro rest
  induction rest with
  | nil =>
    intro a _
    simp [pyMinBy]
  | cons x t ih =>
    intro a hp
    obtain ⟨ha, hp1⟩ := List.pairwise_cons.mp hp
    obtain ⟨hx, hpt⟩ := List.pairwise_cons.mp hp1
    by_cases hxa : k x < k a
    · have hfold : pyMinBy k a (x :: t) = pyMinBy k x t := by
        simp [pyMinBy, hxa]
      obtain ⟨m1, m2, m3⟩ := ih x hp1
      rw [hfold]
      refine ⟨List.mem_cons_of_mem a m1, ?_, ?_⟩
      · intro y hy
        rcases List.mem_cons.mp hy with rfl | hy
        · exact le_of_lt (lt_of_le_of_lt (m2 x (List.mem_cons_self x t)) hxa)
        · exact m2 y hy
      · intro y hy hk
        rcases List.mem_cons.mp hy with rfl | hy
        · exfalso
          have : k (pyMinBy k x t) < k y :=
            lt_of_le_of_lt (m2 x (List.mem_cons_self x t)) hxa
          rw [hk] at this
          exact lt_irrefl _ this
        · exact m3 y hy hk
    · have h' : k a ≤ k x := not_lt.mp hxa
      have hfold : pyMinBy k a (x :: t) = pyMinBy k a t := by
        simp [pyMinBy, hxa]
      have hpa : (a :: t).Pairwise (· ≤ ·) :=
        List.pairwise_cons.mpr
          ⟨fun y hy => ha y (List.mem_cons_of_mem x hy), hpt⟩
      obtain ⟨m1, m2, m3⟩ := ih a hpa
      rw [hfold]
      refine ⟨?_, ?_, ?_⟩
      · rcases List.mem_cons.mp m1 with h1 | h1
        · rw [h1]
          exact List.mem_cons_self a (x :: t)
        · exact List.mem_cons_of_mem a (List.mem_cons_of_mem x h1)
      · intro y hy
        rcases List.mem_cons.mp hy with rfl | hy
        · exact m2 y (List.mem_cons_self y t)
        · rcases List.mem_cons.mp hy with rfl | hy
          · exact le_trans (m2 a (List.mem_cons_self a t)) h'
          · exact m2 y (List.mem_cons_of_mem a hy)
      · intro y hy hk
        rcases List.mem_cons.mp hy with rfl | hy
        · exact m3 y (List.mem_cons_self y t) hk
        · rcases List.mem_cons.mp hy with rfl | hy
          · have hle : k (pyMinBy k a t) ≤ k a := m2 a (List.mem_cons_self a t)
            have hka : k a = k (pyMinBy k a t) :=
              le_antisymm (le_trans h' (le_of_eq hk)) hle
            exact le_trans (m3 a (List.mem_cons_self a t) hka)
              (ha _ (List.mem_cons_self _ t))
          · exact m3 y (List.mem_cons_of_mem a hy) hk

/-- Python `list.remove(x)` with `x ∈ l` deletes exactly the first
occurrence of `x`. -/
theorem pyRemoveFirst_split {x : ℚ} {l : List ℚ} (h : x ∈ l) :
    ∃ l1 l2, l = l1 ++ x :: l2 ∧ pyRemoveFirst x l = l1 ++ l2 := by
  induction l with
  | nil => simp at h
  | cons a t ih =>
    by_cases hax : a = x
    · exact ⟨[], t, by rw [hax]; rfl, by simp [pyRemoveFirst, hax]⟩
    · have hx : x ∈ t := by
        rcases List.mem_cons.mp h with h1 | h1
        · exact absurd h1.symm hax
        · exact h1
      obtain ⟨l1, l2, he, hr⟩ := ih hx
      exact ⟨a :: l1, l2, by simp [he], by simp [pyRemoveFirst, hax, hr]⟩

/-- Claim C5 (confirmed): on an empty anchor store `remove_nearest_anchor`
is a no-op; on a non-empty store (sorted ascending, as the viewer maintains
it) it removes exactly one element `m`, where `m` minimizes the absolute
distance to the query coordinate `y_click / user_scale`, and among
equidistant anchors `m` is the one with the lower coordinate. -/
theorem C5_nearest_removal (anchors : List ℚ) (y_click user_scale : ℚ)
    (hs : anchors.Pairwise (· ≤ ·)) :
    (anchors = [] →
      remove_nearest_anchor anchors y_click user_scale = anchors) ∧
    (anchors ≠ [] →
      ∃ m ∈ anchors, ∃ l1 l2,
        anchors = l1 ++ m :: l2 ∧
        remove_nearest_anchor anchors y_click user_scale = l1 ++ l2 ∧
        (∀ a ∈ anchors,
          |m - y_click / user_scale| ≤ |a - y_click / user_scale|) ∧
        (∀ a ∈ anchors,
          |a - y_click / user_scale| = |m - y_click / user_scale| →
            m ≤ a)) := by
  constructor
  · intro h
    subst h
    rfl
  · intro hne
    match anchors, hs, hne with
    | a :: rest, hs, _ =>
      obtain ⟨hmem, hmin, htie⟩ :=
        pyMinBy_spec (fun x => |x - y_click / user_scale|) rest a hs
      obtain ⟨l1, l2, he, hr⟩ := pyRemoveFirst_split hmem
      refine ⟨pyMinBy (fun x => |x - y_click / user_scale|) a rest, hmem,
        l1, l2, he, ?_, hmin, htie⟩
      rw [show remove_nearest_anchor (a :: rest) y_click user_scale =
        pyRemoveFirst (pyMinBy (fun x => |x - y_click / user_scale|) a rest)
          (a :: rest) from rfl]
      exact hr

/-- Witness for C5: the sorted store `[10, 20, 30]` with query coordinate 24
(click 24 at user scale 1). -/
theorem C5_witness :
    (([10, 20, 30] : List ℚ).Pairwise (· ≤ ·)) ∧
    (([10, 20, 30] : List ℚ) ≠ [] →
      ∃ m ∈ ([10, 20, 30] : List ℚ), ∃ l1 l2,
        ([10, 20, 30] : List ℚ) = l1 ++ m :: l2 ∧
        remove_nearest_anchor [10, 20, 30] 24 1 = l1 ++ l2 ∧
        (∀ a ∈ ([10, 20, 30] : List ℚ), |m - 24 / 1| ≤ |a - 24 / 1|) ∧
        (∀ a ∈ ([10, 20, 30] : List ℚ),
          |a - 24 / 1| = |m - 24 / 1| → m ≤ a)) := by
  have hp : ([10, 20, 30] : List ℚ).Pairwise (· ≤ ·) := by
    norm_num
  exact ⟨hp, (C5_nearest_removal [10, 20, 30] 24 1 hp).2⟩

/-- The spec's first nearest-removal example: query 24 removes 20
(distance 4 beats distance 6). -/
theorem remove_nearest_example_near :
    remove_nearest_anchor [10, 20, 30] 24 1 = [10, 30] := by
  norm_num [remove_nearest_anchor, pyMinBy, pyRemoveFirst, List.foldl]

/-- The spec's second nearest-removal example: query 25 is equidistant from
20 and 30 and removes the lower coordinate 20. -/
theorem remove_nearest_example_tie :
    remove_nearest_anchor [10, 20, 30] 25 1 = [10, 30] := by
  norm_num [remove_nearest_anchor, pyMinBy, pyRemoveFirst, List.foldl]

end PDFViewer
